import Mathlib

/-!
# Verification of the storj-uplink native binding layer

Shallow embedding of the C sources under `src/native/src` (handle helpers,
error registry, and the async-work completion routines) together with
theorems settling the specification's claims about them.

Conventions of the embedding:
* `size_t` ids become `Nat`, `int32_t` codes become `Int`.
* A C pointer that may be `NULL` becomes an `Option`.
* N-API calls whose success depends on the JavaScript engine are modelled
  by explicit environment records of Boolean oracles.
* Stateful completion routines become pure functions from their inputs to a
  list of observable events, in the order the C code performs them.
-/

namespace StorjUplink

/-- Handle kinds, from the `HandleType` enum in `handle_helpers.h`. -/
inductive HandleType where
  | HANDLE_TYPE_ACCESS
  | HANDLE_TYPE_PROJECT
  | HANDLE_TYPE_DOWNLOAD
  | HANDLE_TYPE_UPLOAD
  | HANDLE_TYPE_ENCRYPTION_KEY
  | HANDLE_TYPE_PART_UPLOAD
  | HANDLE_TYPE_OBJECT_ITERATOR
  | HANDLE_TYPE_BUCKET_ITERATOR
  | HANDLE_TYPE_UPLOAD_ITERATOR
  | HANDLE_TYPE_PART_ITERATOR
  deriving DecidableEq, Repr

/-- `UplinkDownload` from `uplink.h`: the descriptor struct holding the
Go-side universe handle of an open download. -/
structure UplinkDownload where
  _handle : Nat
  deriving DecidableEq, Repr

/-- A non-NULL `void*` descriptor pointer as stored in a handle wrapper.
`of_download d` is a pointer to the `UplinkDownload` struct `d`;
`of_addr a` is any other native descriptor address. -/
inductive NativePtr where
  | of_download (d : UplinkDownload)
  | of_addr (a : Nat)
  deriving DecidableEq, Repr

/-- `HandleWrapper` from `handle_helpers.h`: `{ HandleType type; size_t handle;
void* native_ptr; }`.  `native_ptr = none` models the C `NULL`. -/
structure HandleWrapper where
  type : HandleType
  handle : Nat
  native_ptr : Option NativePtr
  deriving DecidableEq, Repr

/-- The `napi_status` values relevant to the embedded code. -/
inductive NapiStatus where
  | napi_ok
  | napi_invalid_arg
  | napi_cancelled
  | napi_generic_failure
  deriving DecidableEq, Repr

/-- `create_handle_external` (`handle_helpers.c:123`), success path: allocates
a `HandleWrapper` carrying `{type, handle, native_ptr}` and wraps it in a JS
external.  (The C function can also fail on out-of-memory or a failed
`napi_create_external`, in which case no external is produced at all; the
claims quantify over handles that were actually created.) -/
def create_handle_external (handle : Nat) (type : HandleType)
    (native_ptr : Option NativePtr) : HandleWrapper :=
  { type := type, handle := handle, native_ptr := native_ptr }

/-- `extract_handle` (`handle_helpers.c:153`).  The input models
`napi_get_value_external`: `none` when the JS value is not an external or its
data pointer is `NULL`.  Returns the stored id on success, `napi_invalid_arg`
when the external is unrecognized, the kind tag mismatches, or the stored id
is zero. -/
def extract_handle (js_value : Option HandleWrapper) (type : HandleType) :
    Except NapiStatus Nat :=
  match js_value with
  | none => .error .napi_invalid_arg
  | some wrapper =>
    if wrapper.type ≠ type then
      .error .napi_invalid_arg
    else if wrapper.handle = 0 then
      .error .napi_invalid_arg
    else
      .ok wrapper.handle

/-- `validate_handle` (`handle_helpers.c:184`): a handle id is valid iff nonzero. -/
def validate_handle (handle : Nat) : Bool :=
  handle ≠ 0

/-- The `uplink_free_*_result` release routines dispatched to by
`free_native_resource`. -/
inductive NativeFreeRoutine where
  | uplink_free_access_result
  | uplink_free_project_result
  | uplink_free_download_result
  | uplink_free_upload_result
  | uplink_free_encryption_key_result
  | uplink_free_part_upload_result
  deriving DecidableEq, Repr

/-- Observable effects of the handle destructor path. -/
inductive DestructorEvent where
  | native_release (f : NativeFreeRoutine) (ptr : NativePtr)
  | free_wrapper (w : HandleWrapper)
  deriving DecidableEq, Repr

/-- `free_native_resource` (`handle_helpers.c:47`): dispatches on the handle
kind to the matching `uplink_free_*_result` routine; the default branch
(iterator kinds) performs no action. -/
def free_native_resource (type : HandleType) (native_ptr : NativePtr) :
    List DestructorEvent :=
  match type with
  | .HANDLE_TYPE_ACCESS =>
      [.native_release .uplink_free_access_result native_ptr]
  | .HANDLE_TYPE_PROJECT =>
      [.native_release .uplink_free_project_result native_ptr]
  | .HANDLE_TYPE_DOWNLOAD =>
      [.native_release .uplink_free_download_result native_ptr]
  | .HANDLE_TYPE_UPLOAD =>
      [.native_release .uplink_free_upload_result native_ptr]
  | .HANDLE_TYPE_ENCRYPTION_KEY =>
      [.native_release .uplink_free_encryption_key_result native_ptr]
  | .HANDLE_TYPE_PART_UPLOAD =>
      [.native_release .uplink_free_part_upload_result native_ptr]
  | _ => []

/-- `handle_destructor` (`handle_helpers.c:104`): given the external's data
pointer (`none` models `NULL`), releases the native resource when the wrapper
stores a non-NULL descriptor pointer, then frees the wrapper allocation.
Note that the wrapper's fields are only read, never written: in particular
`native_ptr` is not set to `NULL` before `free(wrapper)`. -/
def handle_destructor (data : Option HandleWrapper) : List DestructorEvent :=
  match data with
  | none => []
  | some wrapper =>
    (match wrapper.native_ptr with
     | some p => free_native_resource wrapper.type p
     | none => []) ++ [.free_wrapper wrapper]

/-- Counts invocations of kind-specific `uplink_free_*_result` routines. -/
def releaseCount (events : List DestructorEvent) : Nat :=
  events.countP (fun e => match e with
    | .native_release _ _ => true
    | _ => false)

/-- Counts `free(wrapper)` calls. -/
def wrapperFreeCount (events : List DestructorEvent) : Nat :=
  events.countP (fun e => match e with
    | .free_wrapper _ => true
    | _ => false)

/-- Synchronous outcome of `free_bucket_iterator` (`bucket_ops.c:534`): either
the argument fails `extract_handle` and a TypeError is thrown, or async work
is queued whose execute phase calls `uplink_free_bucket_iterator` on the
extracted raw iterator pointer. -/
inductive FreeIteratorOutcome where
  | throw_invalid_handle
  | queued (iterator_handle : Nat)
  deriving DecidableEq, Repr

/-- `free_bucket_iterator` (`bucket_ops.c:534`), argument-validation path:
extracts a `HANDLE_TYPE_BUCKET_ITERATOR` handle from the JS argument and, on
success, queues `free_bucket_iterator_execute` with the extracted id.  The
function never writes to the wrapper, so the wrapper seen by a later call on
the same JS value is unchanged. -/
def free_bucket_iterator (js_value : Option HandleWrapper) : FreeIteratorOutcome :=
  match extract_handle js_value .HANDLE_TYPE_BUCKET_ITERATOR with
  | .error _ => .throw_invalid_handle
  | .ok h => .queued h

/-- `free_bucket_iterator_execute` (`bucket_execute.c:138`): calls
`uplink_free_bucket_iterator` on the raw iterator pointer stored as the
handle id.  Returns the pointer the native free routine is invoked on. -/
def free_bucket_iterator_execute (iterator_handle : Nat) : Nat :=
  iterator_handle

/-! ## JavaScript value model

Only the shapes the embedded code produces are modelled: plain objects,
`Error` objects made by `napi_create_error`, and class instances made by
`napi_new_instance` on a registered constructor reference (identified by the
class name the reference was created for). -/

/-- JS values produced by the binding's completion and error paths. -/
inductive JsValue where
  | js_undefined
  | js_null
  | js_bool (b : Bool)
  | js_int (n : Int)
  | js_string (s : String)
  | js_object (fields : List (String × JsValue))
  | js_external (w : HandleWrapper)
  | js_error (message : String) (props : List (String × JsValue))
  | js_instance (ctor : String) (arg : Option String) (props : List (String × JsValue))

/-- `napi_set_named_property`: adds a property.  The embedded code never sets
the same key twice on one object. -/
def napi_set_named_property (obj : JsValue) (key : String) (v : JsValue) : JsValue :=
  match obj with
  | .js_object fields => .js_object (fields ++ [(key, v)])
  | .js_error m props => .js_error m (props ++ [(key, v)])
  | .js_instance c a props => .js_instance c a (props ++ [(key, v)])
  | other => other

/-- Property lookup on the modelled JS values. -/
def js_get_property (obj : JsValue) (key : String) : Option JsValue :=
  let rec look : List (String × JsValue) → Option JsValue
    | [] => none
    | (k, v) :: rest => if k = key then some v else look rest
  match obj with
  | .js_object fields => look fields
  | .js_error _ props => look props
  | .js_instance _ _ props => look props
  | _ => none

/-- The `message` of an `Error` made by `napi_create_error`. -/
def js_error_message : JsValue → Option String
  | .js_error m _ => some m
  | _ => none

/-- True exactly for instances of the code-0 base class `StorjError`. -/
def is_base_error_instance : JsValue → Bool
  | .js_instance c _ _ => c = "StorjError"
  | _ => false

/-! ## Error registry (`error_registry.c`) -/

/-- `UplinkError` from `uplink.h`: `{ int32_t code; char* message; }` (plus
Go-side bookkeeping).  `message = none` models a `NULL` message, as uplink-c
produces for end-of-file on reads. -/
structure UplinkError where
  code : Int
  message : Option String
  deriving DecidableEq, Repr

/-- `UplinkErrorSimple` from `result_helpers.h`. -/
structure UplinkErrorSimple where
  code : Int
  message : Option String
  deriving DecidableEq, Repr

/-- The `ERROR_NAMES` table of `result_helpers.c`. -/
def ERROR_NAMES : List (Int × String) :=
  [ (0x02, "InternalError"),
    (0x03, "CanceledError"),
    (0x04, "InvalidHandleError"),
    (0x05, "TooManyRequestsError"),
    (0x06, "BandwidthLimitError"),
    (0x07, "StorageLimitError"),
    (0x08, "SegmentsLimitError"),
    (0x09, "PermissionDeniedError"),
    (0x10, "BucketNameInvalidError"),
    (0x11, "BucketAlreadyExistsError"),
    (0x12, "BucketNotEmptyError"),
    (0x13, "BucketNotFoundError"),
    (0x20, "ObjectKeyInvalidError"),
    (0x21, "ObjectNotFoundError"),
    (0x22, "UploadDoneError") ]

/-- The loop inside `get_error_name`. -/
def lookup_error_name : List (Int × String) → Int → String
  | [], _ => "UplinkError"
  | (c, n) :: rest, code => if c = code then n else lookup_error_name rest code

/-- `get_error_name` (`result_helpers.c`): name for the fallback error's
`name` property; `"UplinkError"` when the code is not in `ERROR_NAMES`. -/
def get_error_name (code : Int) : String :=
  lookup_error_name ERROR_NAMES code

/-- `uplink_error_to_js` (`result_helpers.c`): builds a plain `Error` with
the message (or `"Unknown error"`), then attaches `code` and `name`. -/
def uplink_error_to_js (error : UplinkErrorSimple) : JsValue :=
  let message := error.message.getD "Unknown error"
  let js_error := JsValue.js_error message []
  let js_error := napi_set_named_property js_error "code" (.js_int error.code)
  napi_set_named_property js_error "name" (.js_string (get_error_name error.code))

/-- `ErrorClassEntry` from `error_registry.c`: a native code, a class name,
and a persistent constructor reference (`none` models `NULL`).  A stored
reference is identified by the class name it was created for. -/
structure ErrorClassEntry where
  code : Int
  name : String
  constructor_ref : Option String
  deriving DecidableEq, Repr

/-- The static `error_registry` table in its initial state: all constructor
references `NULL`.  Order and codes follow `error_registry.c:176`. -/
def error_registry_table : List ErrorClassEntry :=
  [ ⟨0,    "StorjError",                    none⟩,
    ⟨0x02, "InternalError",                 none⟩,
    ⟨0x03, "CanceledError",                 none⟩,
    ⟨0x04, "InvalidHandleError",            none⟩,
    ⟨0x05, "TooManyRequestsError",          none⟩,
    ⟨0x06, "BandwidthLimitExceededError",   none⟩,
    ⟨0x07, "StorageLimitExceededError",     none⟩,
    ⟨0x08, "SegmentsLimitExceededError",    none⟩,
    ⟨0x09, "PermissionDeniedError",         none⟩,
    ⟨0x10, "BucketNameInvalidError",        none⟩,
    ⟨0x11, "BucketAlreadyExistsError",      none⟩,
    ⟨0x12, "BucketNotEmptyError",           none⟩,
    ⟨0x13, "BucketNotFoundError",           none⟩,
    ⟨0x20, "ObjectKeyInvalidError",         none⟩,
    ⟨0x21, "ObjectNotFoundError",           none⟩,
    ⟨0x22, "UploadDoneError",               none⟩,
    ⟨0x30, "EdgeAuthDialFailedError",       none⟩,
    ⟨0x31, "EdgeRegisterAccessFailedError", none⟩ ]

/-- The mutable registry state: the entry table plus the `g_registered` flag
(`static int g_registered = 0`). -/
structure RegistryState where
  error_registry : List ErrorClassEntry
  g_registered : Bool
  deriving DecidableEq, Repr

/-- Process-start state of the registry. -/
def initial_registry_state : RegistryState :=
  { error_registry := error_registry_table, g_registered := false }

/-- Oracles for the N-API steps of class registration: whether the classes
object has a function-valued property of a given name, and whether
`napi_create_reference` succeeds for it. -/
structure NapiClassesEnv where
  has_constructor : String → Bool
  create_reference_ok : String → Bool

/-- `register_one_error_class` (`error_registry.c:212`): on success the entry
stores a reference to the constructor named `entry.name`; on any failure the
entry is left unchanged (its reference is `NULL` at this point, since
registration only runs on a cleaned-up table). -/
def register_one_error_class (cenv : NapiClassesEnv) (entry : ErrorClassEntry) :
    ErrorClassEntry :=
  if cenv.has_constructor entry.name then
    if cenv.create_reference_ok entry.name then
      { entry with constructor_ref := some entry.name }
    else entry
  else entry

/-- `error_registry_cleanup` (`error_registry.c:393`): deletes every stored
constructor reference and clears `g_registered`. -/
def error_registry_cleanup (st : RegistryState) : RegistryState :=
  { error_registry :=
      st.error_registry.map (fun e => { e with constructor_ref := none }),
    g_registered := false }

/-- `napi_init_error_classes` (`error_registry.c:272`), success path (the
embedded class script ran and the factory returned the classes object): if
already registered, first tears down the old references; then registers each
table entry (per-entry failures are skipped) and sets `g_registered`
unconditionally. -/
def napi_init_error_classes (cenv : NapiClassesEnv) (st : RegistryState) :
    RegistryState :=
  let st1 := if st.g_registered then error_registry_cleanup st else st
  { error_registry := st1.error_registry.map (register_one_error_class cenv),
    g_registered := true }

/-- `find_error_constructor_ref` (`error_registry.c:339`): first entry whose
code matches and whose constructor reference is non-NULL. -/
def find_error_constructor_ref : List ErrorClassEntry → Int → Option String
  | [], _ => none
  | e :: rest, code =>
    match e.constructor_ref with
    | some ref =>
        if e.code = code then some ref else find_error_constructor_ref rest code
    | none => find_error_constructor_ref rest code

/-- Oracles for the N-API steps of `create_typed_error`: whether
`napi_get_reference_value` yields the constructor and whether
`napi_new_instance` succeeds on it. -/
structure NapiRefEnv where
  get_reference_value_ok : String → Bool
  new_instance_ok : String → Bool

/-- `create_typed_error` (`error_registry.c:349`): when registered and a
constructor is found for the code, instantiate it with the message (or
`undefined`); on any failure, and always when unregistered, fall back to
`uplink_error_to_js` on `{code, message ? message : "Unknown error"}`. -/
def create_typed_error (env : NapiRefEnv) (st : RegistryState) (code : Int)
    (message : Option String) : JsValue :=
  let typed :=
    if st.g_registered then
      match find_error_constructor_ref st.error_registry code with
      | some ref =>
        if env.get_reference_value_ok ref then
          if env.new_instance_ok ref then
            some (JsValue.js_instance ref message [])
          else none
        else none
      | none => none
    else none
  match typed with
  | some inst => inst
  | none =>
      uplink_error_to_js { code := code, message := some (message.getD "Unknown error") }

/-- Class-environment oracle with every registration step succeeding, as when
the embedded script's classes object is intact. -/
def all_classes_ok : NapiClassesEnv :=
  { has_constructor := fun _ => true, create_reference_ok := fun _ => true }

/-- Reference-environment oracle with every instantiation step succeeding. -/
def all_refs_ok : NapiRefEnv :=
  { get_reference_value_ok := fun _ => true, new_instance_ok := fun _ => true }

/-- The registry right after a fully successful `napi_init_error_classes`. -/
def registered_state : RegistryState :=
  napi_init_error_classes all_classes_ok initial_registry_state

/-! ## Completion routines

Each `*_complete` callback runs once on the main thread with the terminal
`napi_status` of its async work (N-API invokes the complete callback of every
queued work item exactly once, with `napi_cancelled` when the work was
cancelled before its execute phase ran).  The callbacks are embedded as pure
functions returning the list of observable actions in program order.
`read_result_field` marks the first read of a payload field written by the
worker (the `work_data->result`/`work_data->error` access guarding the error
branch); the cancellation check precedes it in every routine. -/

/-- Observable actions of a completion routine. -/
inductive CompletionEvent where
  | read_result_field
  | reject_deferred (err : JsValue)
  | resolve_deferred (v : JsValue)
  | uplink_free_error (e : UplinkError)
  | uplink_free_bucket_result
  | uplink_free_bucket
  | create_handle (w : HandleWrapper)
  | free_payload_string (field : String)
  | napi_delete_reference
  | napi_delete_async_work
  | free_work_data
  | null_deref

/-- The generic cancellation rejection of `REJECT_IF_CANCELLED`
(`cancel_helpers.h:36`): `napi_create_error` on the literal
`"Operation cancelled"`, built without consulting the error registry. -/
def cancellation_error : JsValue :=
  JsValue.js_error "Operation cancelled" []

/-- `UplinkDownloadResult` from `uplink.h`: `{ UplinkDownload* download;
UplinkError* error; }`.  uplink-c guarantees exactly one of the two fields is
non-NULL in a result returned by `uplink_download_object`. -/
structure UplinkDownloadResult where
  download : Option UplinkDownload
  error : Option UplinkError
  deriving DecidableEq, Repr

/-- `DownloadObjectData` from `download_types.h`. -/
structure DownloadObjectData where
  project_handle : Nat
  bucket_name : String
  object_key : String
  offset : Int
  length : Int
  result : UplinkDownloadResult
  deriving DecidableEq, Repr

/-- `download_object_complete` (`download_complete.c:21`).  Branches:
cancelled, worker error, worker success; all three end in the `cleanup:`
block that frees `bucket_name`, `object_key`, the async work, and the payload.
The success branch dereferences `result.download` unconditionally; a result
with both fields NULL (never produced by `uplink_download_object`) would fault
in C before reaching cleanup, modelled by the `null_deref` event. -/
def download_object_complete (env : NapiRefEnv) (st : RegistryState)
    (status : NapiStatus) (work_data : DownloadObjectData) : List CompletionEvent :=
  let cleanup : List CompletionEvent :=
    [.free_payload_string "bucket_name", .free_payload_string "object_key",
     .napi_delete_async_work, .free_work_data]
  if status = .napi_cancelled then
    .reject_deferred cancellation_error :: cleanup
  else
    .read_result_field ::
    match work_data.result.error with
    | some err =>
        .reject_deferred (create_typed_error env st err.code err.message) ::
        .uplink_free_error err :: cleanup
    | none =>
        match work_data.result.download with
        | some dl =>
            let wrapper := create_handle_external dl._handle
              .HANDLE_TYPE_DOWNLOAD (some (.of_download dl))
            .create_handle wrapper ::
            .resolve_deferred (.js_object [("downloadHandle", .js_external wrapper)]) ::
            cleanup
        | none => [.null_deref]

/-- `UplinkBucket` from `uplink.h`. -/
structure UplinkBucket where
  name : String
  created : Int
  deriving DecidableEq, Repr

/-- `UplinkBucketResult` from `uplink.h`. -/
structure UplinkBucketResult where
  bucket : Option UplinkBucket
  error : Option UplinkError
  deriving DecidableEq, Repr

/-- `BucketOpData` from `bucket_types.h`. -/
structure BucketOpData where
  project_handle : Nat
  bucket_name : String
  result : UplinkBucketResult
  deriving DecidableEq, Repr

/-- `uplink_bucket_to_js` (`bucket_complete.c:20`): `undefined` for a NULL
bucket, else `{name, created}`. -/
def uplink_bucket_to_js : Option UplinkBucket → JsValue
  | none => .js_undefined
  | some bucket =>
      .js_object [("name", .js_string bucket.name), ("created", .js_int bucket.created)]

/-- `create_bucket_complete` (`bucket_complete.c:45`).  Branches: cancelled,
worker error (reject typed error, free native error), worker success (convert
bucket, free the bucket result, resolve); all three end in `cleanup:` which
frees `bucket_name`, the async work, and the payload. -/
def create_bucket_complete (env : NapiRefEnv) (st : RegistryState)
    (status : NapiStatus) (work_data : BucketOpData) : List CompletionEvent :=
  let cleanup : List CompletionEvent :=
    [.free_payload_string "bucket_name", .napi_delete_async_work, .free_work_data]
  if status = .napi_cancelled then
    .reject_deferred cancellation_error :: cleanup
  else
    .read_result_field ::
    match work_data.result.error with
    | some err =>
        .reject_deferred (create_typed_error env st err.code err.message) ::
        .uplink_free_error err :: cleanup
    | none =>
        .uplink_free_bucket_result ::
        .resolve_deferred (uplink_bucket_to_js work_data.result.bucket) :: cleanup

/-- `UplinkReadResult` from `uplink.h`: `{ size_t bytes_read;
UplinkError* error; }`. -/
structure UplinkReadResult where
  bytes_read : Nat
  error : Option UplinkError
  deriving DecidableEq, Repr

/-- `DownloadReadData` from `download_types.h`; `buffer_ref` records whether
a keepalive reference to the JS buffer is held. -/
structure DownloadReadData where
  download_handle : Nat
  data_length : Nat
  buffer_ref : Bool
  result : UplinkReadResult
  deriving DecidableEq, Repr

/-- The error object `download_read_complete` rejects with: the typed error
for the native code with the message (or `"EOF"` when the native message is
NULL, as on end-of-stream), with the partial `bytesRead` count attached. -/
def download_read_error (env : NapiRefEnv) (st : RegistryState)
    (err : UplinkError) (bytes_read : Nat) : JsValue :=
  napi_set_named_property
    (create_typed_error env st err.code (some (err.message.getD "EOF")))
    "bytesRead" (.js_int bytes_read)

/-- `download_read_complete` (`download_complete.c:52`).  Rejects on any
worker-reported error — including end-of-stream — with `bytesRead` attached
to the error object; resolves with `{bytesRead}` otherwise; cleanup drops the
buffer keepalive reference (when held), the async work, and the payload. -/
def download_read_complete (env : NapiRefEnv) (st : RegistryState)
    (status : NapiStatus) (work_data : DownloadReadData) : List CompletionEvent :=
  let cleanup : List CompletionEvent :=
    (if work_data.buffer_ref then [.napi_delete_reference] else []) ++
    [.napi_delete_async_work, .free_work_data]
  if status = .napi_cancelled then
    .reject_deferred cancellation_error :: cleanup
  else
    .read_result_field ::
    match work_data.result.error with
    | some err =>
        .reject_deferred (download_read_error env st err work_data.result.bytes_read) ::
        .uplink_free_error err :: cleanup
    | none =>
        .resolve_deferred
          (.js_object [("bytesRead", .js_int work_data.result.bytes_read)]) :: cleanup

/-- `BucketIteratorErrData` from `bucket_types.h`. -/
structure BucketIteratorErrData where
  iterator_handle : Nat
  error : Option UplinkError
  deriving DecidableEq, Repr

/-- `bucket_iterator_err_complete` (`bucket_complete.c:250`).  When the
iterator carries an error: build the typed error, free the native error, and
*resolve* the promise with the error object; otherwise resolve with `null`.
Only cancellation rejects. -/
def bucket_iterator_err_complete (env : NapiRefEnv) (st : RegistryState)
    (status : NapiStatus) (work_data : BucketIteratorErrData) : List CompletionEvent :=
  let cleanup : List CompletionEvent := [.napi_delete_async_work, .free_work_data]
  if status = .napi_cancelled then
    .reject_deferred cancellation_error :: cleanup
  else
    .read_result_field ::
    match work_data.error with
    | some err =>
        .uplink_free_error err ::
        .resolve_deferred (create_typed_error env st err.code err.message) :: cleanup
    | none =>
        .resolve_deferred .js_null :: cleanup

/-- Boolean discriminators used to count events. -/
def is_free_work_data : CompletionEvent → Bool
  | .free_work_data => true
  | _ => false

def is_delete_async_work : CompletionEvent → Bool
  | .napi_delete_async_work => true
  | _ => false

def is_free_payload_string (field : String) : CompletionEvent → Bool
  | .free_payload_string f => f = field
  | _ => false

def is_delete_reference : CompletionEvent → Bool
  | .napi_delete_reference => true
  | _ => false

def is_read_result_field : CompletionEvent → Bool
  | .read_result_field => true
  | _ => false

def is_reject : CompletionEvent → Bool
  | .reject_deferred _ => true
  | _ => false

def is_resolve : CompletionEvent → Bool
  | .resolve_deferred _ => true
  | _ => false

/-- The fallback error object of `create_typed_error`: `uplink_error_to_js`
on `{code, message ? message : "Unknown error"}`. -/
def fallback_error (code : Int) (message : Option String) : JsValue :=
  uplink_error_to_js { code := code, message := some (message.getD "Unknown error") }

/-! ## Theorems -/

/-- Helper: a hit of `find_error_constructor_ref` is a table entry with the
requested code and that stored reference. -/
theorem find_error_constructor_ref_mem (entries : List ErrorClassEntry)
    (code : Int) (ref : String)
    (h : find_error_constructor_ref entries code = some ref) :
    ∃ entry ∈ entries, entry.code = code ∧ entry.constructor_ref = some ref := by
  induction entries with
  | nil => simp [find_error_constructor_ref] at h
  | cons e rest ih =>
    rw [find_error_constructor_ref] at h
    rcases hc : e.constructor_ref with _ | r
    · simp only [hc] at h
      obtain ⟨entry, hmem, hrest⟩ := ih h
      exact ⟨entry, List.mem_cons_of_mem _ hmem, hrest⟩
    · simp only [hc] at h
      by_cases hcode : e.code = code
      · rw [if_pos hcode] at h
        exact ⟨e, List.mem_cons_self _ _, hcode, by rw [hc]; exact h⟩
      · rw [if_neg hcode] at h
        obtain ⟨entry, hmem, hrest⟩ := ih h
        exact ⟨entry, List.mem_cons_of_mem _ hmem, hrest⟩

/-- Helper: `create_typed_error` yields either a one-argument constructor
instance with no extra properties, or the fallback object. -/
theorem create_typed_error_shape (env : NapiRefEnv) (st : RegistryState)
    (code : Int) (message : Option String) :
    (∃ ref, create_typed_error env st code message = .js_instance ref message []) ∨
    create_typed_error env st code message = fallback_error code message := by
  unfold create_typed_error fallback_error
  cases hreg : st.g_registered
  · simp
  · rcases hfind : find_error_constructor_ref st.error_registry code with _ | ref
    · simp
    · cases h1 : env.get_reference_value_ok ref
      · simp [h1]
      · cases h2 : env.new_instance_ok ref
        · simp [h1, h2]
        · exact Or.inl ⟨ref, by simp [h1, h2]⟩

/-- C1: a handle created by `create_handle_external(n, K, p)` with `n ≠ 0`
extracts to `n` under the expected kind `K`, and extraction under any other
expected kind `K' ≠ K` fails with `napi_invalid_arg`. -/
theorem extract_create_handle_roundtrip (K Kp : HandleType) (n : Nat)
    (p : Option NativePtr) (hn : n ≠ 0) (hK : Kp ≠ K) :
    extract_handle (some (create_handle_external n K p)) K = .ok n ∧
    extract_handle (some (create_handle_external n K p)) Kp =
      .error .napi_invalid_arg := by
  constructor
  · simp [extract_handle, create_handle_external, hn]
  · simp [extract_handle, create_handle_external, Ne.symm hK]

/-- Witness for `extract_create_handle_roundtrip` at `n = 5`, `K = Access`,
`K' = Project`, `p = NULL`. -/
theorem extract_create_handle_roundtrip_witness :
    extract_handle (some (create_handle_external 5 .HANDLE_TYPE_ACCESS none))
      .HANDLE_TYPE_ACCESS = .ok 5 ∧
    extract_handle (some (create_handle_external 5 .HANDLE_TYPE_ACCESS none))
      .HANDLE_TYPE_PROJECT = .error .napi_invalid_arg :=
  extract_create_handle_roundtrip .HANDLE_TYPE_ACCESS .HANDLE_TYPE_PROJECT 5 none
    (by decide) (by decide)

/-- C6: a wrapper whose stored native id is zero fails extraction with
`napi_invalid_arg` even under the matching kind. -/
theorem extract_zero_handle_invalid (K : HandleType) (p : Option NativePtr) :
    extract_handle (some (create_handle_external 0 K p)) K =
      .error .napi_invalid_arg := by
  simp [extract_handle, create_handle_external]

/-- C5 counterexample: `handle_destructor` does not null the owned pointer —
running the destructor twice on the same wrapper (kind Access, id 1, owned
pointer 5) invokes the kind-specific native release routine twice, not at
most once. -/
theorem handle_destructor_no_nulling_counterexample :
    releaseCount
      (handle_destructor (some ⟨.HANDLE_TYPE_ACCESS, 1, some (.of_addr 5)⟩) ++
       handle_destructor (some ⟨.HANDLE_TYPE_ACCESS, 1, some (.of_addr 5)⟩)) = 2 ∧
    handle_destructor (some ⟨.HANDLE_TYPE_ACCESS, 1, some (.of_addr 5)⟩) =
      [.native_release .uplink_free_access_result (.of_addr 5),
       .free_wrapper ⟨.HANDLE_TYPE_ACCESS, 1, some (.of_addr 5)⟩] := by
  constructor <;> decide

/-- C5 (amended): each single run of `handle_destructor` invokes the
kind-specific native release routine at most once and frees the wrapper
exactly once; the wrapper's pointer is never nulled, so a second run on the
same wrapper repeats the release (the at-most-once guarantee per wrapper
rests on the runtime invoking each external's finalizer at most once). -/
theorem handle_destructor_release_per_run (w : HandleWrapper) :
    releaseCount (handle_destructor (some w)) ≤ 1 ∧
    wrapperFreeCount (handle_destructor (some w)) = 1 ∧
    releaseCount (handle_destructor (some w) ++ handle_destructor (some w)) =
      2 * releaseCount (handle_destructor (some w)) := by
  obtain ⟨t, h, p⟩ := w
  rcases p with _ | np <;> cases t <;>
    simp [handle_destructor, free_native_resource, releaseCount, wrapperFreeCount,
      List.countP_append, List.countP_cons, List.countP_nil]

/-- C7: evaluating the free path at the failing input.  A bucket-iterator
wrapper (raw pointer 7 stored as the id, `NULL` descriptor) passes
`extract_handle` and queues the native free; nothing in the free path writes
to the wrapper, so a second `freeBucketIterator` call on the same handle
value sees the identical wrapper, again passes extraction, and again reaches
`uplink_free_bucket_iterator` on pointer 7 — instead of the claimed
`napi_invalid_arg` failure. -/
theorem free_bucket_iterator_twice_reaches_native_free :
    free_bucket_iterator (some ⟨.HANDLE_TYPE_BUCKET_ITERATOR, 7, none⟩) =
      .queued 7 ∧
    free_bucket_iterator_execute 7 = 7 ∧
    extract_handle (some ⟨.HANDLE_TYPE_BUCKET_ITERATOR, 7, none⟩)
      .HANDLE_TYPE_BUCKET_ITERATOR = .ok 7 := by
  exact ⟨rfl, rfl, rfl⟩

/-- C2: the error-taxonomy state machine.  Before registration,
`create_typed_error` returns the fallback plain error carrying the code, the
message, and a name; after any (successful) `napi_init_error_classes`, it
returns an instance of the constructor found for the code when the
engine-side steps succeed and the fallback otherwise (in particular it always
returns an object, never throwing); after `error_registry_cleanup` of any
state it returns the fallback again. -/
theorem create_typed_error_state_machine (env : NapiRefEnv)
    (cenv : NapiClassesEnv) (st : RegistryState) (code : Int)
    (message : Option String) :
    (create_typed_error env initial_registry_state code message =
        fallback_error code message ∧
      js_get_property (fallback_error code message) "code" =
        some (.js_int code) ∧
      js_error_message (fallback_error code message) =
        some (message.getD "Unknown error") ∧
      js_get_property (fallback_error code message) "name" =
        some (.js_string (get_error_name code))) ∧
    (match find_error_constructor_ref
        (napi_init_error_classes cenv st).error_registry code with
     | some ref =>
        create_typed_error env (napi_init_error_classes cenv st) code message =
          (if env.get_reference_value_ok ref && env.new_instance_ok ref then
            JsValue.js_instance ref message []
          else fallback_error code message) ∧
        ∃ entry ∈ (napi_init_error_classes cenv st).error_registry,
          entry.code = code ∧ entry.constructor_ref = some ref
     | none =>
        create_typed_error env (napi_init_error_classes cenv st) code message =
          fallback_error code message) ∧
    create_typed_error env (error_registry_cleanup st) code message =
      fallback_error code message := by
  refine ⟨⟨?_, ?_, ?_, ?_⟩, ?_, ?_⟩
  · simp [create_typed_error, initial_registry_state, fallback_error]
  · simp [fallback_error, uplink_error_to_js, napi_set_named_property,
      js_get_property, js_get_property.look]
  · simp [fallback_error, uplink_error_to_js, napi_set_named_property,
      js_error_message]
  · simp [fallback_error, uplink_error_to_js, napi_set_named_property,
      js_get_property, js_get_property.look]
  · have hreg : (napi_init_error_classes cenv st).g_registered = true := rfl
    rcases hfind : find_error_constructor_ref
        (napi_init_error_classes cenv st).error_registry code with _ | ref
    · simp [create_typed_error, hreg, hfind, fallback_error]
    · refine ⟨?_, find_error_constructor_ref_mem _ _ _ hfind⟩
      cases h1 : env.get_reference_value_ok ref <;>
        cases h2 : env.new_instance_ok ref <;>
          simp [create_typed_error, hreg, hfind, h1, h2, fallback_error]
  · simp [create_typed_error, error_registry_cleanup, fallback_error]

/-- C8 counterexample: entry 0 of the registry table is the code-0
`StorjError` base entry, and with the registry registered,
`create_typed_error` on code 0 instantiates exactly that base constructor. -/
theorem create_typed_error_code_zero_base_instance :
    error_registry_table.head? = some ⟨0, "StorjError", none⟩ ∧
    registered_state.g_registered = true ∧
    create_typed_error all_refs_ok registered_state 0 (some "boom") =
      JsValue.js_instance "StorjError" (some "boom") [] ∧
    is_base_error_instance
      (create_typed_error all_refs_ok registered_state 0 (some "boom")) = true := by
  exact ⟨rfl, rfl, rfl, rfl⟩

/-- C8 (amended): after a fully successful registration, the code-0 base
entry is only reachable by passing code 0 itself: for every code other than
0, `create_typed_error` never returns a `StorjError` base-class instance,
whatever the engine-side oracles do. -/
theorem base_entry_unused_for_nonzero_codes (env : NapiRefEnv)
    (message : Option String) (code : Int) (h : code ≠ 0) :
    is_base_error_instance
      (create_typed_error env registered_state code message) = false := by
  have hreg : registered_state.g_registered = true := rfl
  have hck : ∀ entry ∈ registered_state.error_registry,
      entry.constructor_ref = some entry.name ∧
        (entry.name = "StorjError" → entry.code = 0) := by decide
  rcases hfind : find_error_constructor_ref
      registered_state.error_registry code with _ | ref
  · simp [create_typed_error, hreg, hfind, uplink_error_to_js,
      napi_set_named_property, is_base_error_instance]
  · have hne : ref ≠ "StorjError" := by
      obtain ⟨entry, hmem, hcode, href⟩ :=
        find_error_constructor_ref_mem _ _ _ hfind
      obtain ⟨hc1, hc2⟩ := hck entry hmem
      have : ref = entry.name := by
        rw [hc1] at href
        exact (Option.some_injective _ href.symm)
      intro hcontra
      exact h (hcode ▸ (hc2 (this ▸ hcontra)))
    cases h1 : env.get_reference_value_ok ref <;>
      cases h2 : env.new_instance_ok ref <;>
        simp [create_typed_error, hreg, hfind, h1, h2, uplink_error_to_js,
          napi_set_named_property, is_base_error_instance, hne]

/-- Witness for `base_entry_unused_for_nonzero_codes` at code `0x13`
(bucket not found). -/
theorem base_entry_unused_for_nonzero_codes_witness :
    (0x13 : Int) ≠ 0 ∧
    is_base_error_instance
      (create_typed_error all_refs_ok registered_state 0x13 (some "x")) = false :=
  ⟨by decide,
   base_entry_unused_for_nonzero_codes all_refs_ok (some "x") 0x13 (by decide)⟩

/-- C4: a completion routine invoked with cancelled status first rejects with
the generic `"Operation cancelled"` error — built by `napi_create_error`
without consulting the registry, hence the trace is the same for every
registry state and oracle — reads no payload result field, and then performs
the full payload cleanup. -/
theorem cancelled_completion_rejects_before_reads (env : NapiRefEnv)
    (st : RegistryState) (bd : BucketOpData) (wd : DownloadObjectData) :
    create_bucket_complete env st .napi_cancelled bd =
      CompletionEvent.reject_deferred cancellation_error ::
        [.free_payload_string "bucket_name", .napi_delete_async_work,
         .free_work_data] ∧
    (create_bucket_complete env st .napi_cancelled bd).countP
      is_read_result_field = 0 ∧
    download_object_complete env st .napi_cancelled wd =
      CompletionEvent.reject_deferred cancellation_error ::
        [.free_payload_string "bucket_name", .free_payload_string "object_key",
         .napi_delete_async_work, .free_work_data] ∧
    (download_object_complete env st .napi_cancelled wd).countP
      is_read_result_field = 0 := by
  exact ⟨rfl, rfl, rfl, rfl⟩

/-- C3: in each of the three completion branches (cancelled, worker error,
worker success), control reaches the `cleanup:` block exactly once: each
payload-owned input string is freed exactly once, the buffer keepalive
reference is dropped exactly once when held, the async work is deleted
exactly once, and the payload struct is freed exactly once.  (N-API invokes
each queued work's complete callback exactly once with its terminal status;
the hypothesis is the uplink-c result invariant that `uplink_download_object`
never returns with both fields NULL.) -/
theorem completion_cleanup_exactly_once (env : NapiRefEnv) (st : RegistryState)
    (status : NapiStatus) (wd : DownloadObjectData) (bd : BucketOpData)
    (rd : DownloadReadData)
    (habi : wd.result.error = none → wd.result.download ≠ none) :
    ((download_object_complete env st status wd).countP
        (is_free_payload_string "bucket_name") = 1 ∧
      (download_object_complete env st status wd).countP
        (is_free_payload_string "object_key") = 1 ∧
      (download_object_complete env st status wd).countP
        is_delete_async_work = 1 ∧
      (download_object_complete env st status wd).countP is_free_work_data = 1) ∧
    ((create_bucket_complete env st status bd).countP
        (is_free_payload_string "bucket_name") = 1 ∧
      (create_bucket_complete env st status bd).countP is_delete_async_work = 1 ∧
      (create_bucket_complete env st status bd).countP is_free_work_data = 1) ∧
    ((download_read_complete env st status rd).countP is_delete_reference =
        (if rd.buffer_ref then 1 else 0) ∧
      (download_read_complete env st status rd).countP is_delete_async_work = 1 ∧
      (download_read_complete env st status rd).countP is_free_work_data = 1) := by
  refine ⟨?_, ?_, ?_⟩
  · by_cases hs : status = NapiStatus.napi_cancelled
    · subst hs
      simp [download_object_complete, is_free_payload_string,
        is_delete_async_work, is_free_work_data, List.countP_cons,
        List.countP_nil]
    · rcases herr : wd.result.error with _ | err
      · rcases hdl : wd.result.download with _ | dl
        · exact absurd hdl (habi herr)
        · simp [download_object_complete, hs, herr, hdl,
            is_free_payload_string, is_delete_async_work, is_free_work_data,
            List.countP_cons, List.countP_nil]
      · simp [download_object_complete, hs, herr, is_free_payload_string,
          is_delete_async_work, is_free_work_data, List.countP_cons,
          List.countP_nil]
  · by_cases hs : status = NapiStatus.napi_cancelled
    · subst hs
      simp [create_bucket_complete, is_free_payload_string,
        is_delete_async_work, is_free_work_data, List.countP_cons,
        List.countP_nil]
    · rcases herr : bd.result.error with _ | err <;>
        simp [create_bucket_complete, hs, herr, is_free_payload_string,
          is_delete_async_work, is_free_work_data, List.countP_cons,
          List.countP_nil]
  · by_cases hs : status = NapiStatus.napi_cancelled
    · subst hs
      cases hb : rd.buffer_ref <;>
        simp [download_read_complete, hb, is_delete_reference,
          is_delete_async_work, is_free_work_data, List.countP_cons,
          List.countP_nil, List.countP_append]
    · rcases herr : rd.result.error with _ | err <;>
        cases hb : rd.buffer_ref <;>
          simp [download_read_complete, hs, herr, hb, is_delete_reference,
            is_delete_async_work, is_free_work_data, List.countP_cons,
            List.countP_nil, List.countP_append]

/-- Witness for `completion_cleanup_exactly_once` at concrete payloads: a
successful download-object result (handle 3), a failed bucket result
(code `0x13`, "bucket missing"), and an EOF read result with a held buffer
reference, all completed with `napi_ok`. -/
theorem completion_cleanup_exactly_once_witness :
    ((⟨1, "b", "k", 0, 10, ⟨some ⟨3⟩, none⟩⟩ :
        DownloadObjectData).result.error = none →
      (⟨1, "b", "k", 0, 10, ⟨some ⟨3⟩, none⟩⟩ :
        DownloadObjectData).result.download ≠ none) ∧
    (download_object_complete all_refs_ok registered_state .napi_ok
        ⟨1, "b", "k", 0, 10, ⟨some ⟨3⟩, none⟩⟩).countP
      (is_free_payload_string "bucket_name") = 1 ∧
    (create_bucket_complete all_refs_ok registered_state .napi_ok
        ⟨2, "bn", ⟨none, some ⟨0x13, some "bucket missing"⟩⟩⟩).countP
      is_free_work_data = 1 ∧
    (download_read_complete all_refs_ok registered_state .napi_ok
        ⟨4, 64, true, ⟨42, some ⟨-1, none⟩⟩⟩).countP is_delete_reference = 1 := by
  have h := completion_cleanup_exactly_once all_refs_ok registered_state
    .napi_ok ⟨1, "b", "k", 0, 10, ⟨some ⟨3⟩, none⟩⟩
    ⟨2, "bn", ⟨none, some ⟨0x13, some "bucket missing"⟩⟩⟩
    ⟨4, 64, true, ⟨42, some ⟨-1, none⟩⟩⟩ (fun _ => by decide)
  exact ⟨fun _ => by decide, h.1.1, h.2.1.2.2, by simpa using h.2.2.1⟩

/-- C9: `download_read_complete` rejects on every worker-reported error —
end-of-stream included (uplink-c reports EOF as an error with a NULL message,
mapped to "EOF") — attaching the partial count as a `bytesRead` property of
the rejection error object, and resolves with `{bytesRead}` equal to the
native count when no error is reported. -/
theorem download_read_reject_resolve (env : NapiRefEnv) (st : RegistryState)
    (wd : DownloadReadData) :
    (∀ err, wd.result.error = some err →
      CompletionEvent.reject_deferred
          (download_read_error env st err wd.result.bytes_read) ∈
        download_read_complete env st .napi_ok wd ∧
      js_get_property (download_read_error env st err wd.result.bytes_read)
          "bytesRead" = some (.js_int wd.result.bytes_read) ∧
      (download_read_complete env st .napi_ok wd).countP is_resolve = 0) ∧
    (wd.result.error = none →
      CompletionEvent.resolve_deferred
          (.js_object [("bytesRead", .js_int wd.result.bytes_read)]) ∈
        download_read_complete env st .napi_ok wd ∧
      (download_read_complete env st .napi_ok wd).countP is_reject = 0) := by
  constructor
  · intro err herr
    refine ⟨?_, ?_, ?_⟩
    · cases hb : wd.buffer_ref <;>
        simp [download_read_complete, herr, hb]
    · rcases create_typed_error_shape env st err.code
          (some (err.message.getD "EOF")) with ⟨ref, hshape⟩ | hshape <;>
        simp [download_read_error, hshape, fallback_error, uplink_error_to_js,
          napi_set_named_property, js_get_property, js_get_property.look]
    · cases hb : wd.buffer_ref <;>
        simp [download_read_complete, herr, hb, is_resolve, List.countP_cons,
          List.countP_nil, List.countP_append]
  · intro herr
    constructor
    · cases hb : wd.buffer_ref <;>
        simp [download_read_complete, herr, hb]
    · cases hb : wd.buffer_ref <;>
        simp [download_read_complete, herr, hb, is_reject, List.countP_cons,
          List.countP_nil, List.countP_append]

/-- Witness for `download_read_reject_resolve` at the EOF error
`{code = -1, message = NULL}` with 42 bytes read and a held buffer
reference. -/
theorem download_read_reject_resolve_witness :
    CompletionEvent.reject_deferred
        (download_read_error all_refs_ok registered_state ⟨-1, none⟩ 42) ∈
      download_read_complete all_refs_ok registered_state .napi_ok
        ⟨4, 64, true, ⟨42, some ⟨-1, none⟩⟩⟩ ∧
    js_get_property (download_read_error all_refs_ok registered_state
        ⟨-1, none⟩ 42) "bytesRead" = some (.js_int 42) ∧
    (download_read_complete all_refs_ok registered_state .napi_ok
        ⟨4, 64, true, ⟨42, some ⟨-1, none⟩⟩⟩).countP is_resolve = 0 := by
  have h := (download_read_reject_resolve all_refs_ok registered_state
    ⟨4, 64, true, ⟨42, some ⟨-1, none⟩⟩⟩).1 ⟨-1, none⟩ rfl
  exact h

/-- C10: `bucket_iterator_err_complete` (non-cancelled completion) never
rejects: when the iterator carries an error it frees the native error and
resolves the promise with the typed error object, and when there is no error
it resolves with `null`. -/
theorem bucket_iterator_err_never_rejects (env : NapiRefEnv)
    (st : RegistryState) (wd : BucketIteratorErrData) :
    (bucket_iterator_err_complete env st .napi_ok wd).countP is_reject = 0 ∧
    (∀ err, wd.error = some err →
      bucket_iterator_err_complete env st .napi_ok wd =
        [.read_result_field, .uplink_free_error err,
         .resolve_deferred (create_typed_error env st err.code err.message),
         .napi_delete_async_work, .free_work_data]) ∧
    (wd.error = none →
      bucket_iterator_err_complete env st .napi_ok wd =
        [.read_result_field, .resolve_deferred .js_null,
         .napi_delete_async_work, .free_work_data]) := by
  refine ⟨?_, ?_, ?_⟩
  · rcases herr : wd.error with _ | err <;>
      simp [bucket_iterator_err_complete, herr, is_reject, List.countP_cons,
        List.countP_nil]
  · intro err herr
    simp [bucket_iterator_err_complete, herr]
  · intro herr
    simp [bucket_iterator_err_complete, herr]

/-- Witness for `bucket_iterator_err_never_rejects` at a concrete iterator
error `{code = 0x13, message = "bucket missing"}` and at no error. -/
theorem bucket_iterator_err_never_rejects_witness :
    (bucket_iterator_err_complete all_refs_ok registered_state .napi_ok
        ⟨9, some ⟨0x13, some "bucket missing"⟩⟩).countP is_reject = 0 ∧
    bucket_iterator_err_complete all_refs_ok registered_state .napi_ok
        ⟨9, some ⟨0x13, some "bucket missing"⟩⟩ =
      [.read_result_field, .uplink_free_error ⟨0x13, some "bucket missing"⟩,
       .resolve_deferred (create_typed_error all_refs_ok registered_state 0x13
         (some "bucket missing")),
       .napi_delete_async_work, .free_work_data] ∧
    bucket_iterator_err_complete all_refs_ok registered_state .napi_ok
        ⟨9, none⟩ =
      [.read_result_field, .resolve_deferred .js_null,
       .napi_delete_async_work, .free_work_data] := by
  refine ⟨(bucket_iterator_err_never_rejects all_refs_ok registered_state
      ⟨9, some ⟨0x13, some "bucket missing"⟩⟩).1,
    (bucket_iterator_err_never_rejects all_refs_ok registered_state
      ⟨9, some ⟨0x13, some "bucket missing"⟩⟩).2.1
      ⟨0x13, some "bucket missing"⟩ rfl,
    (bucket_iterator_err_never_rejects all_refs_ok registered_state
      ⟨9, none⟩).2.2 rfl⟩

end StorjUplink
